import Mathlib

/-!
Verification model of the Social-Media-Analyzer backend (`src/Backend/app.js`).

The backend is an Express app with two POST handlers, `/upload-pdf` and
`/upload-image`.  Each handler is a linear try/process/respond/cleanup
sequence.  We embed the handlers as pure Lean functions.  External,
third-party behaviour is abstracted:

* the uploaded PDF byte stream is represented by its denotation `PdfDoc`:
  either `malformed` or a well-formed list of pages, each page carrying its
  embedded text objects (what `pdf-parse` concatenates) and a rendering
  function `render : scale → image id` standing for
  `page.getViewport + page.render + canvas.toBuffer`;
* `Tesseract.recognize` is an oracle `World.ocr : Nat → Except Unit String`
  from image ids to recognized text (or an OCR failure);
* the Gemini HTTP call `axios.post` is an oracle
  `AnalysisWorld.post : String → String → Except Unit GeminiResponse`
  (url, request body ↦ parsed response or network failure), and
  `process.env.GEMINI_API_KEY` is `AnalysisWorld.key : Option String`.

Side effects are recorded in an explicit `List Event` trace: temporary file
creation by multer, `fs.readFileSync`, pdf.js document/page operations,
OCR invocations, the analysis attempt, outbound network posts, and
`fs.unlinkSync` in the `finally` cleanup.  Error payloads thrown in the JS
are collapsed to simple error values since every handler catches all errors
with a single generic 500 response.
-/

/-- Observable effects of one request, in the order the JS code performs
them.  `fileCreate` is multer writing the staged upload; `unlink` is
`fs.unlinkSync` in the `finally` block; `renderPage i s` is rendering page
`i` (1-based) at viewport scale `s`; `ocrRun img lang` is
`Tesseract.recognize` on image `img` with language `lang`;
`analysisAttempt` marks entry into `getSocialMediaAnalysis`; `netPost url`
is the outbound `axios.post` to `url`. -/
inductive Event where
  | fileCreate (path : String)
  | readFile
  | getDocument
  | getPage (i : Nat)
  | renderPage (i : Nat) (scale : ℚ)
  | ocrRun (img : Nat) (lang : String)
  | pageCleanup (i : Nat)
  | canvasDestroy (i : Nat)
  | analysisAttempt
  | netPost (url : String)
  | unlink (path : String)
deriving DecidableEq

/-- The externally visible HTTP response: `res.json({text, analysis})`,
`res.status(400).send(msg)`, or `res.status(500).send(msg)`. -/
inductive Response where
  | ok (text : String) (analysis : Option String)
  | badRequest (msg : String)
  | serverError (msg : String)
deriving DecidableEq

/-- The `analysis` field of the reply payload; error responses carry none. -/
def analysisOf : Response → Option String
  | Response.ok _ a => a
  | Response.badRequest _ => none
  | Response.serverError _ => none

/-- One page of a well-formed PDF: its embedded text objects in order, and
its rasterization (`render s` = the image id of the bitmap obtained by
rendering at viewport scale `s` and encoding the canvas as PNG). -/
structure PdfPage where
  textObjects : List String
  render : ℚ → Nat

/-- Denotation of an uploaded PDF byte stream: either not a well-formed PDF
(`pdf-parse` and `pdfjsLib.getDocument` reject it) or a list of pages. -/
inductive PdfDoc where
  | malformed
  | wellFormed (pages : List PdfPage)

/-- Concatenation of a list of strings in order. -/
def concatStrings : List String → String
  | [] => ""
  | s :: rest => s ++ concatStrings rest

/-- The embedded text of one page: its text objects concatenated in order. -/
def pdfPageText (p : PdfPage) : String := concatStrings p.textObjects

/-- Contract of the external `pdf-parse` library (direct mode): on a
well-formed PDF it yields each page's embedded text objects concatenated in
page order; on a malformed byte stream it throws. -/
def pdfParse : PdfDoc → Except Unit String
  | PdfDoc.malformed => Except.error ()
  | PdfDoc.wellFormed pages => Except.ok (concatStrings (pages.map pdfPageText))

/-- Gemini response part: `parts[j].text` may be absent. -/
structure GeminiPart where
  text : Option String

/-- Gemini response content: `content.parts` may be absent. -/
structure GeminiContent where
  parts : Option (List GeminiPart)

/-- Gemini response candidate: `candidate.content` may be absent. -/
structure GeminiCandidate where
  content : Option GeminiContent

/-- Parsed body of a Gemini API response: `data.candidates` may be absent. -/
structure GeminiResponse where
  candidates : Option (List GeminiCandidate)

/-- Errors of `getSocialMediaAnalysis`: the configuration error thrown when
`GEMINI_API_KEY` is missing, and the error rethrown from its try/catch
(network failure or unexpected response structure). -/
inductive AnalysisErr where
  | missingKey
  | callFailed
deriving DecidableEq

/-- Environment and network as seen by `getSocialMediaAnalysis`:
`key` is `process.env.GEMINI_API_KEY`; `post url body` is the result of
`axios.post url body` (a parsed response, or a thrown network error). -/
structure AnalysisWorld where
  key : Option String
  post : String → String → Except Unit GeminiResponse

/-- External behaviour a whole request depends on: the OCR engine
(`Tesseract.recognize`, image id ↦ recognized text or failure) and the
analysis environment. -/
structure World where
  ocr : Nat → Except Unit String
  analysis : AnalysisWorld

/-- The Gemini endpoint URL with the API key passed in the query string. -/
def geminiApiUrl (key : String) : String :=
  "https://generativelanguage.googleapis.com/v1beta/models/gemini-1.5-flash-latest:generateContent?key=" ++ key

/-- The fixed prompt template with the post text interpolated verbatim. -/
def geminiPrompt (text : String) : String :=
  "You are a world-class social media strategist. Analyze the following post text. Your task is to:\n1. Correct any grammar and spelling mistakes to make it sound professional and clear.\n2. Suggest a list of 5 to 10 relevant and trending hashtags to maximize reach.\n3. Provide a short, actionable paragraph of advice on how to make the post more engaging.\n\nFormat your response in Markdown with clear headings for \"Improved Text\", \"Suggested Hashtags\", and \"Engagement Advice\".\n\nHere is the post text:\n---\n" ++ text ++ "\n---"

/-- The first candidate's text extracted along the optional chain
`response.data.candidates?.[0]` and `candidate.content?.parts?.[0]?.text`. -/
def geminiFirstCandidateText (resp : GeminiResponse) : Option String :=
  (resp.candidates.bind List.head?).bind fun cand =>
    ((cand.content.bind GeminiContent.parts).bind List.head?).bind GeminiPart.text

/-- Model of `getSocialMediaAnalysis`: throws a configuration error if the
API key is absent (before any network call), otherwise posts the fixed
prompt to the Gemini endpoint and returns the first candidate's text; a
network failure, a response missing the first candidate's text, or an empty
text (falsy in the JS truthiness check) is an analysis-call error.  The
trace records the attempt and any outbound post. -/
def getSocialMediaAnalysis (aw : AnalysisWorld) (text : String) :
    Except AnalysisErr String × List Event :=
  match aw.key with
  | none => (Except.error AnalysisErr.missingKey, [Event.analysisAttempt])
  | some key =>
      let apiUrl := geminiApiUrl key
      match aw.post apiUrl (geminiPrompt text) with
      | Except.error _ =>
          (Except.error AnalysisErr.callFailed, [Event.analysisAttempt, Event.netPost apiUrl])
      | Except.ok resp =>
          match geminiFirstCandidateText resp with
          | some t =>
              if t == "" then
                (Except.error AnalysisErr.callFailed, [Event.analysisAttempt, Event.netPost apiUrl])
              else
                (Except.ok t, [Event.analysisAttempt, Event.netPost apiUrl])
          | none =>
              (Except.error AnalysisErr.callFailed, [Event.analysisAttempt, Event.netPost apiUrl])

/-- Flag parsing: `req.body.scanned === "true"` / `req.body.analyze === "true"`.
An absent field is `none`; any other string compares unequal. -/
def parseFlag : Option String → Bool
  | some s => s == "true"
  | none => false

/-- The OCR page loop of the scanned-PDF branch, processing the remaining
pages sequentially with `i` the 1-based index of the head page: get the
page, render it at scale 2.0, OCR the bitmap with language "eng", append
the recognized text plus a newline, release the page and canvas, continue.
An OCR failure aborts the loop (the release steps of the failing page are
skipped, as in the JS where the exception propagates). -/
def ocrPages (w : World) : List PdfPage → Nat → Except Unit String × List Event
  | [], _ => (Except.ok "", [])
  | p :: rest, i =>
      let img := p.render 2
      let evs0 := [Event.getPage i, Event.renderPage i 2, Event.ocrRun img "eng"]
      match w.ocr img with
      | Except.error e => (Except.error e, evs0)
      | Except.ok t =>
          let evs1 := evs0 ++ [Event.pageCleanup i, Event.canvasDestroy i]
          match ocrPages w rest (i + 1) with
          | (Except.error e, evs2) => (Except.error e, evs1 ++ evs2)
          | (Except.ok ts, evs2) => (Except.ok ((t ++ "\n") ++ ts), evs1 ++ evs2)

/-- The scanned-PDF branch: `pdfjsLib.getDocument` rejects a malformed byte
stream; otherwise the page loop runs over pages `1..numPages`. -/
def ocrExtract (w : World) : PdfDoc → Except Unit String × List Event
  | PdfDoc.malformed => (Except.error (), [Event.getDocument])
  | PdfDoc.wellFormed pages =>
      match ocrPages w pages 1 with
      | (r, evs) => (r, Event.getDocument :: evs)

/-- Text extraction for `/upload-pdf`: direct `pdfParse` when not scanned,
the OCR branch when scanned. -/
def extractPdfText (w : World) (isScanned : Bool) (doc : PdfDoc) :
    Except Unit String × List Event :=
  if !isScanned then (pdfParse doc, [])
  else ocrExtract w doc

/-- JS whitespace per `String.prototype.trim`: ASCII whitespace plus the
Unicode space separators, line separators and the BOM. -/
def isJsWhitespace (c : Char) : Bool :=
  c == ' ' || c == '\t' || c == '\n' || c == '\r' || (c == Char.ofNat 11) ||
    (c == Char.ofNat 12) || (c == Char.ofNat 160) || (c == Char.ofNat 5760) ||
    (8192 ≤ c.toNat && c.toNat ≤ 8202) || (c == Char.ofNat 8232) ||
    (c == Char.ofNat 8233) || (c == Char.ofNat 8239) || (c == Char.ofNat 8287) ||
    (c == Char.ofNat 12288) || (c == Char.ofNat 65279)

/-- JS `text.trim()`: remove leading and trailing whitespace. -/
def jsTrim (s : String) : String :=
  String.mk (((s.data.dropWhile isJsWhitespace).reverse.dropWhile isJsWhitespace).reverse)

/-- The conditional analysis step shared verbatim by both handlers:
`if (shouldAnalyze && extractedText.trim()) analysisResult = await getSocialMediaAnalysis(extractedText)`,
with `analysisResult` initialized to null.  An analysis error propagates. -/
def analyzePhase (aw : AnalysisWorld) (shouldAnalyze : Bool) (text : String) :
    Except AnalysisErr (Option String) × List Event :=
  if shouldAnalyze && !(jsTrim text == "") then
    match getSocialMediaAnalysis aw text with
    | (Except.ok a, evs) => (Except.ok (some a), evs)
    | (Except.error e, evs) => (Except.error e, evs)
  else (Except.ok none, [])

/-- One filesystem transition: a `fileCreate` of the path makes it exist,
an `unlink` of the path removes it, every other event leaves it alone. -/
def fsStep (path : String) (ex : Bool) (e : Event) : Bool :=
  match e with
  | Event.fileCreate q => if q == path then true else ex
  | Event.unlink q => if q == path then false else ex
  | _ => ex

/-- `fs.existsSync` on the model filesystem: a path exists after a trace if
a `fileCreate` for it is not followed by an `unlink` for it.  Requests
start from an empty staging state for their own unique path. -/
def existsSync (path : String) (evs : List Event) : Bool :=
  evs.foldl (fsStep path) false

/-- The `finally` block of both handlers:
`if (fs.existsSync(filePath)) fs.unlinkSync(filePath)`. -/
def finallyCleanup (path : String) (evs : List Event) : List Event :=
  if existsSync path evs then [Event.unlink path] else []

/-- A request to `/upload-pdf`: the optional multer file (its staged path
and the denotation of its bytes) and the raw `scanned` / `analyze` form
fields. -/
structure PdfRequest where
  file : Option (String × PdfDoc)
  scanned : Option String
  analyze : Option String

/-- The try block of the `/upload-pdf` handler: parse the flags, read the
staged file, extract text (direct or OCR), conditionally analyze, and
respond; any thrown error is caught and becomes the generic 500. -/
def uploadPdfTry (w : World) (req : PdfRequest) (doc : PdfDoc) :
    Response × List Event :=
  let isScanned := parseFlag req.scanned
  let shouldAnalyze := parseFlag req.analyze
  match extractPdfText w isScanned doc with
  | (Except.error _, evs1) =>
      (Response.serverError "Failed to process PDF.", Event.readFile :: evs1)
  | (Except.ok extractedText, evs1) =>
      match analyzePhase w.analysis shouldAnalyze extractedText with
      | (Except.ok analysisResult, evs2) =>
          (Response.ok extractedText analysisResult, Event.readFile :: (evs1 ++ evs2))
      | (Except.error _, evs2) =>
          (Response.serverError "Failed to process PDF.", Event.readFile :: (evs1 ++ evs2))

/-- The `/upload-pdf` handler: 400 with no side effects when no file field
is present (multer stages nothing); otherwise multer stages the file, the
try block runs, and the `finally` cleanup always executes. -/
def uploadPdfHandler (w : World) (req : PdfRequest) : Response × List Event :=
  match req.file with
  | none => (Response.badRequest "No file uploaded.", [])
  | some (path, doc) =>
      match uploadPdfTry w req doc with
      | (resp, tryEvs) =>
          let evs := Event.fileCreate path :: tryEvs
          (resp, evs ++ finallyCleanup path evs)

/-- A request to `/upload-image`: the optional multer file (staged path and
the image id its bytes denote) and the raw form fields; `scanned` may be
sent by a client but the handler never reads it. -/
structure ImageRequest where
  file : Option (String × Nat)
  scanned : Option String
  analyze : Option String

/-- The try block of the `/upload-image` handler: parse the analyze flag,
OCR the staged file directly with language "eng", conditionally analyze,
respond; any thrown error becomes the generic 500. -/
def uploadImageTry (w : World) (req : ImageRequest) (img : Nat) :
    Response × List Event :=
  let shouldAnalyze := parseFlag req.analyze
  match w.ocr img with
  | Except.error _ =>
      (Response.serverError "Failed to extract image text.", [Event.ocrRun img "eng"])
  | Except.ok extractedText =>
      match analyzePhase w.analysis shouldAnalyze extractedText with
      | (Except.ok analysisResult, evs2) =>
          (Response.ok extractedText analysisResult, Event.ocrRun img "eng" :: evs2)
      | (Except.error _, evs2) =>
          (Response.serverError "Failed to extract image text.", Event.ocrRun img "eng" :: evs2)

/-- The `/upload-image` handler: 400 with no side effects when no file
field is present; otherwise stage, try, and always clean up. -/
def uploadImageHandler (w : World) (req : ImageRequest) : Response × List Event :=
  match req.file with
  | none => (Response.badRequest "No file uploaded.", [])
  | some (path, img) =>
      match uploadImageTry w req img with
      | (resp, tryEvs) =>
          let evs := Event.fileCreate path :: tryEvs
          (resp, evs ++ finallyCleanup path evs)

/-- Whether an external call succeeded. -/
def exceptIsOk {ε α : Type} : Except ε α → Bool
  | Except.ok _ => true
  | Except.error _ => false

/-- Spec-side text of one scanned page: the OCR text of its scale-2.0
rendering followed by exactly one newline (empty when OCR fails; only used
under the assumption that every page's OCR succeeds).  Stated from the
spec's words, for comparison with `ocrPages`. -/
def specOcrPageText (w : World) (p : PdfPage) : String :=
  match w.ocr (p.render 2) with
  | Except.ok t => t ++ "\n"
  | Except.error _ => ""

/-- Spec-side scanned-PDF output: the concatenation of all per-page OCR
texts, each followed by a newline, in page order. -/
def specScannedText (w : World) (pages : List PdfPage) : String :=
  concatStrings (pages.map (specOcrPageText w))

/-- Spec-side per-page event sequence with pages numbered from `i`: get the
page, render it at scale 2.0, OCR the bitmap with the English dictionary,
then release the page and the canvas, strictly sequentially per page. -/
def specPageTrace (w : World) : Nat → List PdfPage → List Event
  | _, [] => []
  | i, p :: rest =>
      Event.getPage i :: Event.renderPage i 2 :: Event.ocrRun (p.render 2) "eng" ::
        Event.pageCleanup i :: Event.canvasDestroy i :: specPageTrace w (i + 1) rest

/-- A concrete page whose embedded text objects read "Hello World" and whose
rasterization is image 1. -/
def samplePage1 : PdfPage where
  textObjects := ["Hello ", "World"]
  render := fun _ => 1

/-- A second concrete page, rasterizing to image 2. -/
def samplePage2 : PdfPage where
  textObjects := ["Page two"]
  render := fun _ => 2

/-- A page whose rasterization (image 7) makes the sample OCR engine fail. -/
def sampleBadPage : PdfPage where
  textObjects := []
  render := fun _ => 7

/-- A concrete world for witnesses: OCR succeeds on every image except 7,
the API key is configured, and the network returns one well-formed
candidate. -/
def sampleWorld : World where
  ocr := fun img =>
    if img == 7 then Except.error ()
    else if img == 2 then Except.ok "page two" else Except.ok "recognized text"
  analysis :=
    { key := some "k0"
      post := fun _ _ => Except.ok ⟨some [⟨some ⟨some [⟨some "the analysis"⟩]⟩⟩]⟩ }

/-- Like `sampleWorld` but with no API key in the environment. -/
def sampleNoKeyWorld : World where
  ocr := sampleWorld.ocr
  analysis := { key := none, post := sampleWorld.analysis.post }

/-- Like `sampleWorld` but every outbound post fails with a network error. -/
def sampleFailWorld : World where
  ocr := sampleWorld.ocr
  analysis := { key := some "k0", post := fun _ _ => Except.error () }

/-! ### Trace classification -/

/-- Events that touch the staged upload file. -/
def isFileEvent : Event → Bool
  | Event.fileCreate _ => true
  | Event.unlink _ => true
  | _ => false

/-- Events the extraction phase can produce. -/
def extractionOnly : Event → Bool
  | Event.readFile => true
  | Event.getDocument => true
  | Event.getPage _ => true
  | Event.renderPage _ _ => true
  | Event.ocrRun _ _ => true
  | Event.pageCleanup _ => true
  | Event.canvasDestroy _ => true
  | _ => false

/-- Events the analysis phase can produce. -/
def analysisOnly : Event → Bool
  | Event.analysisAttempt => true
  | Event.netPost _ => true
  | _ => false

theorem all_imp {p q : Event → Bool} (h : ∀ e, p e = true → q e = true)
    {evs : List Event} (hall : evs.all p = true) : evs.all q = true := by
  rw [List.all_eq_true] at hall ⊢
  exact fun e he => h e (hall e he)

theorem extractionOnly_not_file (e : Event) (he : extractionOnly e = true) :
    (!isFileEvent e) = true := by
  cases e <;> simp_all [extractionOnly, isFileEvent]

theorem analysisOnly_not_file (e : Event) (he : analysisOnly e = true) :
    (!isFileEvent e) = true := by
  cases e <;> simp_all [analysisOnly, isFileEvent]

theorem extractionOnly_not_attempt (e : Event) (he : extractionOnly e = true) :
    e ≠ Event.analysisAttempt := by
  cases e <;> simp_all [extractionOnly]

theorem getSocialMediaAnalysis_trace_all (aw : AnalysisWorld) (t : String) :
    ((getSocialMediaAnalysis aw t).2).all analysisOnly = true := by
  cases hk : aw.key with
  | none => simp [getSocialMediaAnalysis, hk, analysisOnly]
  | some k =>
      cases hp : aw.post (geminiApiUrl k) (geminiPrompt t) with
      | error e => simp [getSocialMediaAnalysis, hk, hp, analysisOnly]
      | ok resp =>
          cases hc : geminiFirstCandidateText resp with
          | none => simp [getSocialMediaAnalysis, hk, hp, hc, analysisOnly]
          | some s =>
              cases hs : s == "" <;>
                simp [getSocialMediaAnalysis, hk, hp, hc, hs, analysisOnly]

theorem getSocialMediaAnalysis_trace_head (aw : AnalysisWorld) (t : String) :
    ∃ rest, (getSocialMediaAnalysis aw t).2 = Event.analysisAttempt :: rest := by
  cases hk : aw.key with
  | none => exact ⟨[], by simp [getSocialMediaAnalysis, hk]⟩
  | some k =>
      cases hp : aw.post (geminiApiUrl k) (geminiPrompt t) with
      | error e =>
          exact ⟨[Event.netPost (geminiApiUrl k)], by simp [getSocialMediaAnalysis, hk, hp]⟩
      | ok resp =>
          cases hc : geminiFirstCandidateText resp with
          | none =>
              exact ⟨[Event.netPost (geminiApiUrl k)],
                by simp [getSocialMediaAnalysis, hk, hp, hc]⟩
          | some s =>
              cases hs : s == "" <;>
                exact ⟨[Event.netPost (geminiApiUrl k)],
                  by simp [getSocialMediaAnalysis, hk, hp, hc, hs]⟩

theorem ocrPages_trace_all (w : World) (pages : List PdfPage) (i : Nat) :
    ((ocrPages w pages i).2).all extractionOnly = true := by
  induction pages generalizing i with
  | nil => rfl
  | cons p rest ih =>
      cases ho : w.ocr (p.render 2) with
      | error e => simp [ocrPages, ho, extractionOnly]
      | ok t =>
          cases hr : ocrPages w rest (i + 1) with
          | mk r evs2 =>
              have h2 := ih (i + 1)
              rw [hr] at h2
              cases r with
              | error e2 => simp_all [ocrPages, ho, hr, extractionOnly]
              | ok ts => simp_all [ocrPages, ho, hr, extractionOnly]

theorem ocrExtract_trace_all (w : World) (doc : PdfDoc) :
    ((ocrExtract w doc).2).all extractionOnly = true := by
  cases doc with
  | malformed => rfl
  | wellFormed pages =>
      cases hr : ocrPages w pages 1 with
      | mk r evs =>
          have h := ocrPages_trace_all w pages 1
          rw [hr] at h
          simp_all [ocrExtract, hr, extractionOnly]

theorem extractPdfText_trace_all (w : World) (b : Bool) (doc : PdfDoc) :
    ((extractPdfText w b doc).2).all extractionOnly = true := by
  cases b with
  | false => rfl
  | true => exact ocrExtract_trace_all w doc

theorem analyzePhase_trace_all (aw : AnalysisWorld) (b : Bool) (t : String) :
    ((analyzePhase aw b t).2).all analysisOnly = true := by
  cases hc : b && !(jsTrim t == "") with
  | false => simp [analyzePhase, hc]
  | true =>
      cases hg : getSocialMediaAnalysis aw t with
      | mk r evs =>
          have h := getSocialMediaAnalysis_trace_all aw t
          rw [hg] at h
          cases r <;> simp_all [analyzePhase, hc, hg]

theorem analyzePhase_attempt_of_cond (aw : AnalysisWorld) (b : Bool) (t : String)
    (h : (b && !(jsTrim t == "")) = true) :
    Event.analysisAttempt ∈ (analyzePhase aw b t).2 := by
  obtain ⟨rest, hrest⟩ := getSocialMediaAnalysis_trace_head aw t
  cases hg : getSocialMediaAnalysis aw t with
  | mk r evs =>
      rw [hg] at hrest
      cases r <;> simp_all [analyzePhase, h, hg]

theorem analyzePhase_empty_of_not_cond (aw : AnalysisWorld) (b : Bool) (t : String)
    (h : (b && !(jsTrim t == "")) = false) :
    analyzePhase aw b t = (Except.ok none, []) := by
  simp [analyzePhase, h]

theorem foldl_fsStep_of_no_file (path : String) (evs : List Event) :
    ∀ (b : Bool), evs.all (fun e => !isFileEvent e) = true →
      evs.foldl (fsStep path) b = b := by
  induction evs with
  | nil => intro b _; rfl
  | cons e rest ih =>
      intro b h
      rw [List.all_cons, Bool.and_eq_true] at h
      obtain ⟨he, hrest⟩ := h
      have hstep : fsStep path b e = b := by
        cases e <;> first | rfl | simp [isFileEvent] at he
      rw [List.foldl_cons, hstep, ih b hrest]

theorem existsSync_create_of_pure (path : String) (tryEvs : List Event)
    (h : tryEvs.all (fun e => !isFileEvent e) = true) :
    existsSync path (Event.fileCreate path :: tryEvs) = true := by
  unfold existsSync
  rw [List.foldl_cons]
  have hstep : fsStep path false (Event.fileCreate path) = true := by simp [fsStep]
  rw [hstep, foldl_fsStep_of_no_file path tryEvs true h]

theorem existsSync_after_cleanup (path : String) (evs : List Event) :
    existsSync path (evs ++ [Event.unlink path]) = false := by
  unfold existsSync
  rw [List.foldl_append]
  simp [fsStep]

theorem count_unlink_zero_of_pure (path : String) (evs : List Event)
    (h : evs.all (fun e => !isFileEvent e) = true) :
    evs.count (Event.unlink path) = 0 := by
  rw [List.count_eq_zero]
  intro hmem
  rw [List.all_eq_true] at h
  have := h _ hmem
  simp [isFileEvent] at this

theorem uploadPdfTry_trace_pure (w : World) (req : PdfRequest) (doc : PdfDoc) :
    ((uploadPdfTry w req doc).2).all (fun e => !isFileEvent e) = true := by
  cases hx : extractPdfText w (parseFlag req.scanned) doc with
  | mk r1 evs1 =>
      have h1 : evs1.all (fun e => !isFileEvent e) = true := by
        have h := extractPdfText_trace_all w (parseFlag req.scanned) doc
        rw [hx] at h
        exact all_imp extractionOnly_not_file h
      cases r1 with
      | error e1 => simp_all [uploadPdfTry, hx, isFileEvent]
      | ok t =>
          cases ha : analyzePhase w.analysis (parseFlag req.analyze) t with
          | mk r2 evs2 =>
              have h2 : evs2.all (fun e => !isFileEvent e) = true := by
                have h := analyzePhase_trace_all w.analysis (parseFlag req.analyze) t
                rw [ha] at h
                exact all_imp analysisOnly_not_file h
              cases r2 <;> simp_all [uploadPdfTry, hx, ha, isFileEvent]

theorem uploadImageTry_trace_pure (w : World) (req : ImageRequest) (img : Nat) :
    ((uploadImageTry w req img).2).all (fun e => !isFileEvent e) = true := by
  cases ho : w.ocr img with
  | error e => simp [uploadImageTry, ho, isFileEvent]
  | ok t =>
      cases ha : analyzePhase w.analysis (parseFlag req.analyze) t with
      | mk r2 evs2 =>
          have h2 : evs2.all (fun e => !isFileEvent e) = true := by
            have h := analyzePhase_trace_all w.analysis (parseFlag req.analyze) t
            rw [ha] at h
            exact all_imp analysisOnly_not_file h
          cases r2 <;> simp_all [uploadImageTry, ho, ha, isFileEvent]

/-! ### Helper lemmas -/

theorem parseFlag_true_iff (v : Option String) : parseFlag v = true ↔ v = some "true" := by
  cases v with
  | none => simp [parseFlag]
  | some s => simp [parseFlag]

theorem parseFlag_false_of_ne (v : Option String) (h : v ≠ some "true") :
    parseFlag v = false := by
  cases hv : parseFlag v with
  | false => rfl
  | true => exact absurd ((parseFlag_true_iff v).mp hv) h

theorem attempt_not_mem_of_extraction (evs : List Event)
    (h : evs.all extractionOnly = true) : Event.analysisAttempt ∉ evs := by
  intro hm
  have := List.all_eq_true.mp h _ hm
  exact extractionOnly_not_attempt _ this rfl

theorem attempt_not_mem_finallyCleanup (path : String) (evs : List Event) :
    Event.analysisAttempt ∉ finallyCleanup path evs := by
  unfold finallyCleanup
  split <;> simp

theorem uploadPdfHandler_resp (w : World) (req : PdfRequest) (path : String)
    (doc : PdfDoc) (hf : req.file = some (path, doc)) :
    (uploadPdfHandler w req).1 = (uploadPdfTry w req doc).1 := by
  cases ht : uploadPdfTry w req doc with
  | mk resp evs => simp [uploadPdfHandler, hf, ht]

theorem uploadImageHandler_resp (w : World) (req : ImageRequest) (path : String)
    (img : Nat) (hf : req.file = some (path, img)) :
    (uploadImageHandler w req).1 = (uploadImageTry w req img).1 := by
  cases ht : uploadImageTry w req img with
  | mk resp evs => simp [uploadImageHandler, hf, ht]

theorem uploadPdfHandler_trace (w : World) (req : PdfRequest) (path : String)
    (doc : PdfDoc) (hf : req.file = some (path, doc)) :
    (uploadPdfHandler w req).2 =
      (Event.fileCreate path :: (uploadPdfTry w req doc).2) ++
        finallyCleanup path (Event.fileCreate path :: (uploadPdfTry w req doc).2) := by
  cases ht : uploadPdfTry w req doc with
  | mk resp evs => simp [uploadPdfHandler, hf, ht]

theorem uploadImageHandler_trace (w : World) (req : ImageRequest) (path : String)
    (img : Nat) (hf : req.file = some (path, img)) :
    (uploadImageHandler w req).2 =
      (Event.fileCreate path :: (uploadImageTry w req img).2) ++
        finallyCleanup path (Event.fileCreate path :: (uploadImageTry w req img).2) := by
  cases ht : uploadImageTry w req img with
  | mk resp evs => simp [uploadImageHandler, hf, ht]

theorem handler_cleanup_generic (path : String) (tryEvs : List Event)
    (hpure : tryEvs.all (fun e => !isFileEvent e) = true) :
    ((Event.fileCreate path :: tryEvs) ++
        finallyCleanup path (Event.fileCreate path :: tryEvs)).count (Event.unlink path) = 1 ∧
    existsSync path
      ((Event.fileCreate path :: tryEvs) ++
        finallyCleanup path (Event.fileCreate path :: tryEvs)) = false := by
  have hex := existsSync_create_of_pure path tryEvs hpure
  have hfc : finallyCleanup path (Event.fileCreate path :: tryEvs) = [Event.unlink path] := by
    simp [finallyCleanup, hex]
  rw [hfc]
  constructor
  · rw [List.count_append, List.count_cons]
    rw [count_unlink_zero_of_pure path tryEvs hpure]
    simp
  · exact existsSync_after_cleanup path _

theorem ocrPages_spec (w : World) (pages : List PdfPage) :
    ∀ i : Nat, pages.all (fun p => exceptIsOk (w.ocr (p.render 2))) = true →
      ocrPages w pages i = (Except.ok (specScannedText w pages), specPageTrace w i pages) := by
  induction pages with
  | nil => intro i _; simp [ocrPages, specScannedText, concatStrings, specPageTrace]
  | cons p rest ih =>
      intro i h
      rw [List.all_cons, Bool.and_eq_true] at h
      obtain ⟨hp, hrest⟩ := h
      cases ho : w.ocr (p.render 2) with
      | error e => rw [ho] at hp; simp [exceptIsOk] at hp
      | ok t =>
          rw [ocrPages, ho, ih (i + 1) hrest]
          simp [specScannedText, concatStrings, specPageTrace, specOcrPageText, ho]

/-! ### Claims -/

/-- Claim C2: for every request to /upload-pdf or /upload-image in which a
temporary file was created (a file field was present), the cleanup step
deleting that temporary file runs exactly once on every exit path — the
trace contains exactly one `unlink` of the staged path — and after the
request the staged file no longer exists. -/
theorem c2_cleanup_exactly_once :
    (∀ (w : World) (req : PdfRequest) (path : String) (doc : PdfDoc),
        req.file = some (path, doc) →
        ((uploadPdfHandler w req).2).count (Event.unlink path) = 1 ∧
        existsSync path (uploadPdfHandler w req).2 = false) ∧
    (∀ (w : World) (req : ImageRequest) (path : String) (img : Nat),
        req.file = some (path, img) →
        ((uploadImageHandler w req).2).count (Event.unlink path) = 1 ∧
        existsSync path (uploadImageHandler w req).2 = false) := by
  constructor
  · intro w req path doc hf
    rw [uploadPdfHandler_trace w req path doc hf]
    exact handler_cleanup_generic path _ (uploadPdfTry_trace_pure w req doc)
  · intro w req path img hf
    rw [uploadImageHandler_trace w req path img hf]
    exact handler_cleanup_generic path _ (uploadImageTry_trace_pure w req img)

/-- Witness for C2 at concrete requests: a standard-PDF request whose
analysis fails (500 path) and an image request that succeeds, both unlink
their staged file exactly once. -/
theorem c2_witness :
    (((uploadPdfHandler sampleFailWorld
          ⟨some ("a.pdf", PdfDoc.wellFormed [samplePage1]), none, some "true"⟩).2).count
        (Event.unlink "a.pdf") = 1 ∧
      existsSync "a.pdf"
        (uploadPdfHandler sampleFailWorld
          ⟨some ("a.pdf", PdfDoc.wellFormed [samplePage1]), none, some "true"⟩).2 = false) ∧
    (((uploadImageHandler sampleWorld ⟨some ("b.png", 3), none, none⟩).2).count
        (Event.unlink "b.png") = 1 ∧
      existsSync "b.png"
        (uploadImageHandler sampleWorld ⟨some ("b.png", 3), none, none⟩).2 = false) :=
  ⟨c2_cleanup_exactly_once.1 sampleFailWorld _ "a.pdf" (PdfDoc.wellFormed [samplePage1]) rfl,
   c2_cleanup_exactly_once.2 sampleWorld _ "b.png" 3 rfl⟩

/-- Claim C6: a request to /upload-pdf or /upload-image with no file field
gets status 400 before any processing: the response is the 400 and the
effect trace is empty, so in particular no temporary file is created. -/
theorem c6_no_file_400 :
    (∀ (w : World) (req : PdfRequest), req.file = none →
        uploadPdfHandler w req = (Response.badRequest "No file uploaded.", [])) ∧
    (∀ (w : World) (req : ImageRequest), req.file = none →
        uploadImageHandler w req = (Response.badRequest "No file uploaded.", [])) := by
  constructor
  · intro w req hf
    simp [uploadPdfHandler, hf]
  · intro w req hf
    simp [uploadImageHandler, hf]

/-- Witness for C6: concrete file-less requests to both endpoints. -/
theorem c6_witness :
    uploadPdfHandler sampleWorld ⟨none, some "true", some "true"⟩ =
      (Response.badRequest "No file uploaded.", []) ∧
    uploadImageHandler sampleWorld ⟨none, some "true", some "true"⟩ =
      (Response.badRequest "No file uploaded.", []) :=
  ⟨c6_no_file_400.1 sampleWorld _ rfl, c6_no_file_400.2 sampleWorld _ rfl⟩

/-- Claim C7: invoking the analysis client with the API key absent raises
the configuration error before making any network call; no post to the
generative-language endpoint appears in the trace. -/
theorem c7_missing_key_no_network (aw : AnalysisWorld) (t : String)
    (h : aw.key = none) :
    getSocialMediaAnalysis aw t =
      (Except.error AnalysisErr.missingKey, [Event.analysisAttempt]) ∧
    ∀ url, Event.netPost url ∉ (getSocialMediaAnalysis aw t).2 := by
  have he : getSocialMediaAnalysis aw t =
      (Except.error AnalysisErr.missingKey, [Event.analysisAttempt]) := by
    simp [getSocialMediaAnalysis, h]
  refine ⟨he, ?_⟩
  intro url hmem
  rw [he] at hmem
  simp at hmem

/-- Witness for C7: the sample keyless environment. -/
theorem c7_witness :
    getSocialMediaAnalysis sampleNoKeyWorld.analysis "some text" =
      (Except.error AnalysisErr.missingKey, [Event.analysisAttempt]) :=
  (c7_missing_key_no_network sampleNoKeyWorld.analysis "some text" rfl).1

/-- Claim C8: the scanned and analyze form fields are booleans by exact
string comparison — the parsed flag is true iff the field is exactly
"true"; "True", "1" and absence parse as false — and the handlers depend on
those fields only through this parsing. -/
theorem c8_flag_exact_string :
    (∀ v : Option String, parseFlag v = true ↔ v = some "true") ∧
    parseFlag (some "True") = false ∧
    parseFlag (some "1") = false ∧
    parseFlag none = false ∧
    (∀ (w : World) (f : Option (String × PdfDoc)) (s a s2 a2 : Option String),
        parseFlag s = parseFlag s2 → parseFlag a = parseFlag a2 →
        uploadPdfHandler w ⟨f, s, a⟩ = uploadPdfHandler w ⟨f, s2, a2⟩) ∧
    (∀ (w : World) (f : Option (String × Nat)) (s a s2 a2 : Option String),
        parseFlag a = parseFlag a2 →
        uploadImageHandler w ⟨f, s, a⟩ = uploadImageHandler w ⟨f, s2, a2⟩) := by
  refine ⟨parseFlag_true_iff, rfl, rfl, rfl, ?_, ?_⟩
  · intro w f s a s2 a2 h1 h2
    cases f with
    | none => rfl
    | some pd =>
        obtain ⟨path, doc⟩ := pd
        have ht : uploadPdfTry w ⟨some (path, doc), s, a⟩ doc =
            uploadPdfTry w ⟨some (path, doc), s2, a2⟩ doc := by
          simp only [uploadPdfTry, h1, h2]
        simp only [uploadPdfHandler, ht]
  · intro w f s a s2 a2 h2
    cases f with
    | none => rfl
    | some pi =>
        obtain ⟨path, img⟩ := pi
        have ht : uploadImageTry w ⟨some (path, img), s, a⟩ img =
            uploadImageTry w ⟨some (path, img), s2, a2⟩ img := by
          simp only [uploadImageTry, h2]
        simp only [uploadImageHandler, ht]

/-- Witness for C8: "True" and "1" parse as false, so a request carrying
them behaves exactly like one with the fields absent. -/
theorem c8_witness :
    uploadPdfHandler sampleWorld ⟨some ("c.pdf", PdfDoc.wellFormed [samplePage1]), some "True", some "1"⟩ =
      uploadPdfHandler sampleWorld ⟨some ("c.pdf", PdfDoc.wellFormed [samplePage1]), none, none⟩ :=
  c8_flag_exact_string.2.2.2.2.1 sampleWorld _ (some "True") (some "1") none none rfl rfl

/-- Claim C10: the /upload-image handler never reads the scanned field: two
requests identical except for scanned produce identical responses and
identical effect traces. -/
theorem c10_image_ignores_scanned (w : World) (req : ImageRequest) (v : Option String) :
    uploadImageHandler w { req with scanned := v } = uploadImageHandler w req := by
  cases req with
  | mk f s a =>
      cases f with
      | none => rfl
      | some pi => rfl

/-- Claim C9: a scanned-mode request whose PDF parses with zero pages runs
the page loop zero times and returns 200 with empty text and null analysis,
even when analyze="true"; an empty extraction result is not an error. -/
theorem c9_zero_pages (w : World) (req : PdfRequest) (path : String)
    (hf : req.file = some (path, PdfDoc.wellFormed []))
    (hs : req.scanned = some "true") (ha : req.analyze = some "true") :
    (uploadPdfHandler w req).1 = Response.ok "" none := by
  rw [uploadPdfHandler_resp w req path (PdfDoc.wellFormed []) hf]
  have hflag : parseFlag req.scanned = true := (parseFlag_true_iff _).mpr hs
  have haf : parseFlag req.analyze = true := (parseFlag_true_iff _).mpr ha
  have hext : extractPdfText w (parseFlag req.scanned) (PdfDoc.wellFormed []) =
      (Except.ok "", [Event.getDocument]) := by
    rw [hflag]
    simp [extractPdfText, ocrExtract, ocrPages]
  have hana : analyzePhase w.analysis (parseFlag req.analyze) "" = (Except.ok none, []) := by
    apply analyzePhase_empty_of_not_cond
    rw [haf]
    decide
  simp [uploadPdfTry, hext, hana]

/-- Witness for C9: a concrete zero-page scanned request with analysis on. -/
theorem c9_witness :
    (uploadPdfHandler sampleWorld
        ⟨some ("g.pdf", PdfDoc.wellFormed []), some "true", some "true"⟩).1 =
      Response.ok "" none :=
  c9_zero_pages sampleWorld _ "g.pdf" rfl rfl rfl

/-- Claim C4: in direct mode (scanned not "true"), a well-formed PDF's 200
response carries exactly the concatenation of each page's embedded text
objects in page order, and a malformed byte stream yields the 500
extraction error. -/
theorem c4_direct_mode (w : World) (req : PdfRequest) (path : String) (doc : PdfDoc)
    (hf : req.file = some (path, doc)) (hs : req.scanned ≠ some "true") :
    (∀ pages, doc = PdfDoc.wellFormed pages →
        ∀ t a, (uploadPdfHandler w req).1 = Response.ok t a →
          t = concatStrings (pages.map pdfPageText)) ∧
    (doc = PdfDoc.malformed →
        (uploadPdfHandler w req).1 = Response.serverError "Failed to process PDF.") := by
  have hflag : parseFlag req.scanned = false := parseFlag_false_of_ne _ hs
  have hresp := uploadPdfHandler_resp w req path doc hf
  constructor
  · intro pages hdoc t a hok
    subst hdoc
    rw [hresp] at hok
    have hext : extractPdfText w (parseFlag req.scanned) (PdfDoc.wellFormed pages) =
        (Except.ok (concatStrings (pages.map pdfPageText)), []) := by
      rw [hflag]
      simp [extractPdfText, pdfParse]
    cases hana : analyzePhase w.analysis (parseFlag req.analyze)
        (concatStrings (pages.map pdfPageText)) with
    | mk r2 evs2 =>
        cases r2 with
        | ok ares =>
            have htry : (uploadPdfTry w req (PdfDoc.wellFormed pages)).1 =
                Response.ok (concatStrings (pages.map pdfPageText)) ares := by
              simp [uploadPdfTry, hext, hana]
            rw [htry] at hok
            injection hok with h1 h2
            exact h1.symm
        | error e2 =>
            have htry : (uploadPdfTry w req (PdfDoc.wellFormed pages)).1 =
                Response.serverError "Failed to process PDF." := by
              simp [uploadPdfTry, hext, hana]
            rw [htry] at hok
            exact Response.noConfusion hok
  · intro hdoc
    subst hdoc
    rw [hresp]
    have hext : extractPdfText w (parseFlag req.scanned) PdfDoc.malformed =
        (Except.error (), []) := by
      rw [hflag]
      simp [extractPdfText, pdfParse]
    simp [uploadPdfTry, hext]

/-- Witness for C4: the "Hello World" one-page PDF in direct mode, and a
corrupted byte stream yielding the 500. -/
theorem c4_witness :
    "Hello World" = concatStrings ([samplePage1].map pdfPageText) ∧
    (uploadPdfHandler sampleWorld ⟨some ("d.pdf", PdfDoc.malformed), none, none⟩).1 =
      Response.serverError "Failed to process PDF." :=
  ⟨(c4_direct_mode sampleWorld
        ⟨some ("d2.pdf", PdfDoc.wellFormed [samplePage1]), none, none⟩ "d2.pdf"
        (PdfDoc.wellFormed [samplePage1]) rfl (by decide)).1 [samplePage1] rfl
      "Hello World" none (by decide),
   (c4_direct_mode sampleWorld ⟨some ("d.pdf", PdfDoc.malformed), none, none⟩ "d.pdf"
        PdfDoc.malformed rfl (by decide)).2 rfl⟩

/-- Claim C5: in scanned mode on an N-page PDF with every page's OCR
succeeding, the pipeline visits pages 1..N strictly in order — for each
page: get it, render at fixed scale 2.0, OCR the bitmap with the English
dictionary, then release the page and the canvas before the next page — and
the extracted text is the concatenation of the per-page OCR texts each
followed by exactly one newline; a handler in this mode (without analysis)
returns exactly that text. -/
theorem c5_scanned_ocr_pipeline (w : World) (pages : List PdfPage)
    (h : pages.all (fun p => exceptIsOk (w.ocr (p.render 2))) = true) :
    ocrExtract w (PdfDoc.wellFormed pages) =
      (Except.ok (specScannedText w pages), Event.getDocument :: specPageTrace w 1 pages) ∧
    (∀ (req : PdfRequest) (path : String),
        req.file = some (path, PdfDoc.wellFormed pages) →
        req.scanned = some "true" → parseFlag req.analyze = false →
        (uploadPdfHandler w req).1 = Response.ok (specScannedText w pages) none) := by
  have hp := ocrPages_spec w pages 1 h
  have hoe : ocrExtract w (PdfDoc.wellFormed pages) =
      (Except.ok (specScannedText w pages), Event.getDocument :: specPageTrace w 1 pages) := by
    simp [ocrExtract, hp]
  refine ⟨hoe, ?_⟩
  intro req path hf hs hana
  rw [uploadPdfHandler_resp w req path _ hf]
  have hflag : parseFlag req.scanned = true := (parseFlag_true_iff _).mpr hs
  have hx : extractPdfText w (parseFlag req.scanned) (PdfDoc.wellFormed pages) =
      (Except.ok (specScannedText w pages), Event.getDocument :: specPageTrace w 1 pages) := by
    rw [hflag]
    exact hoe
  have hana2 : analyzePhase w.analysis (parseFlag req.analyze) (specScannedText w pages) =
      (Except.ok none, []) :=
    analyzePhase_empty_of_not_cond _ _ _ (by rw [hana]; rfl)
  simp [uploadPdfTry, hx, hana2]

/-- Witness for C5: a concrete two-page scanned PDF against the sample OCR
engine. -/
theorem c5_witness :
    ocrExtract sampleWorld (PdfDoc.wellFormed [samplePage1, samplePage2]) =
      (Except.ok (specScannedText sampleWorld [samplePage1, samplePage2]),
        Event.getDocument :: specPageTrace sampleWorld 1 [samplePage1, samplePage2]) :=
  (c5_scanned_ocr_pipeline sampleWorld [samplePage1, samplePage2] (by decide)).1

/-- Claim C3: when extraction succeeds, analysis was requested, and the
analysis call then fails for any reason, the handler returns the generic
500 and the extracted text is discarded — the error response carries no
text field. -/
theorem c3_analysis_failure_discards_text :
    (∀ (w : World) (req : PdfRequest) (path : String) (doc : PdfDoc) (t : String),
        req.file = some (path, doc) →
        parseFlag req.analyze = true →
        (extractPdfText w (parseFlag req.scanned) doc).1 = Except.ok t →
        jsTrim t ≠ "" →
        exceptIsOk (getSocialMediaAnalysis w.analysis t).1 = false →
        (uploadPdfHandler w req).1 = Response.serverError "Failed to process PDF.") ∧
    (∀ (w : World) (req : ImageRequest) (path : String) (img : Nat) (t : String),
        req.file = some (path, img) →
        parseFlag req.analyze = true →
        w.ocr img = Except.ok t →
        jsTrim t ≠ "" →
        exceptIsOk (getSocialMediaAnalysis w.analysis t).1 = false →
        (uploadImageHandler w req).1 =
          Response.serverError "Failed to extract image text.") := by
  constructor
  · intro w req path doc t hf hana hext htrim hfail
    rw [uploadPdfHandler_resp w req path doc hf]
    cases hx : extractPdfText w (parseFlag req.scanned) doc with
    | mk r1 evs1 =>
        rw [hx] at hext
        simp only at hext
        subst hext
        have hcond : (parseFlag req.analyze && !(jsTrim t == "")) = true := by
          simp [hana, htrim]
        cases hg : getSocialMediaAnalysis w.analysis t with
        | mk rg evsg =>
            rw [hg] at hfail
            cases rg with
            | ok a => simp [exceptIsOk] at hfail
            | error e =>
                have hana2 : analyzePhase w.analysis (parseFlag req.analyze) t =
                    (Except.error e, evsg) := by
                  simp [analyzePhase, hcond, hg]
                simp [uploadPdfTry, hx, hana2]
  · intro w req path img t hf hana hext htrim hfail
    rw [uploadImageHandler_resp w req path img hf]
    have hcond : (parseFlag req.analyze && !(jsTrim t == "")) = true := by
      simp [hana, htrim]
    cases hg : getSocialMediaAnalysis w.analysis t with
    | mk rg evsg =>
        rw [hg] at hfail
        cases rg with
        | ok a => simp [exceptIsOk] at hfail
        | error e =>
            have hana2 : analyzePhase w.analysis (parseFlag req.analyze) t =
                (Except.error e, evsg) := by
              simp [analyzePhase, hcond, hg]
            simp [uploadImageTry, hext, hana2]

/-- Witness for C3: both endpoints against the failing-network world. -/
theorem c3_witness :
    (uploadPdfHandler sampleFailWorld
        ⟨some ("e.pdf", PdfDoc.wellFormed [samplePage1]), none, some "true"⟩).1 =
      Response.serverError "Failed to process PDF." ∧
    (uploadImageHandler sampleFailWorld ⟨some ("e.png", 3), none, some "true"⟩).1 =
      Response.serverError "Failed to extract image text." :=
  ⟨c3_analysis_failure_discards_text.1 sampleFailWorld _ "e.pdf"
      (PdfDoc.wellFormed [samplePage1]) "Hello World" rfl (by decide) rfl
      (by decide) rfl,
   c3_analysis_failure_discards_text.2 sampleFailWorld _ "e.png" 3 "recognized text" rfl
      (by decide) rfl (by decide) rfl⟩

theorem attempt_mem_full_iff (path : String) (tryEvs : List Event) :
    Event.analysisAttempt ∈
        (Event.fileCreate path :: tryEvs) ++
          finallyCleanup path (Event.fileCreate path :: tryEvs) ↔
      Event.analysisAttempt ∈ tryEvs := by
  have hcl := attempt_not_mem_finallyCleanup path (Event.fileCreate path :: tryEvs)
  simp [List.mem_append, List.mem_cons, hcl]

theorem uploadPdfTry_c1 (w : World) (req : PdfRequest) (doc : PdfDoc) :
    (Event.analysisAttempt ∈ (uploadPdfTry w req doc).2 ↔
      parseFlag req.analyze = true ∧
      ∃ t, (extractPdfText w (parseFlag req.scanned) doc).1 = Except.ok t ∧
        jsTrim t ≠ "") ∧
    (Event.analysisAttempt ∉ (uploadPdfTry w req doc).2 →
      analysisOf (uploadPdfTry w req doc).1 = none) := by
  cases hx : extractPdfText w (parseFlag req.scanned) doc with
  | mk r1 evs1 =>
      have hall := extractPdfText_trace_all w (parseFlag req.scanned) doc
      rw [hx] at hall
      have hnot1 : Event.analysisAttempt ∉ evs1 := attempt_not_mem_of_extraction evs1 hall
      cases r1 with
      | error e1 =>
          have htry : uploadPdfTry w req doc =
              (Response.serverError "Failed to process PDF.", Event.readFile :: evs1) := by
            simp [uploadPdfTry, hx]
          rw [htry]
          constructor
          · simp [hnot1]
          · intro _
            rfl
      | ok t0 =>
          cases hcond : parseFlag req.analyze && !(jsTrim t0 == "") with
          | false =>
              have hana := analyzePhase_empty_of_not_cond w.analysis (parseFlag req.analyze)
                t0 hcond
              have htry : uploadPdfTry w req doc =
                  (Response.ok t0 none, Event.readFile :: (evs1 ++ [])) := by
                simp [uploadPdfTry, hx, hana]
              rw [htry]
              constructor
              · constructor
                · intro hm
                  exfalso
                  simp [hnot1] at hm
                · rintro ⟨hana2, t, ht, htrim⟩
                  exfalso
                  simp only at ht
                  injection ht with ht
                  rw [hana2] at hcond
                  simp at hcond
                  rw [ht] at hcond
                  exact htrim hcond
              · intro _
                rfl
          | true =>
              simp only [Bool.and_eq_true, Bool.not_eq_true', beq_eq_false_iff_ne] at hcond
              obtain ⟨hana1, htrim1⟩ := hcond
              have hcond' : (parseFlag req.analyze && !(jsTrim t0 == "")) = true := by
                simp [hana1, htrim1]
              cases hana : analyzePhase w.analysis (parseFlag req.analyze) t0 with
              | mk r2 evs2 =>
                  have hatt : Event.analysisAttempt ∈ evs2 := by
                    have h := analyzePhase_attempt_of_cond w.analysis
                      (parseFlag req.analyze) t0 hcond'
                    rw [hana] at h
                    exact h
                  cases r2 with
                  | ok ares =>
                      have htry : uploadPdfTry w req doc =
                          (Response.ok t0 ares, Event.readFile :: (evs1 ++ evs2)) := by
                        simp [uploadPdfTry, hx, hana]
                      rw [htry]
                      constructor
                      · constructor
                        · intro _
                          exact ⟨hana1, t0, rfl, htrim1⟩
                        · intro _
                          simp [List.mem_cons, List.mem_append, hatt]
                      · intro hnm
                        exfalso
                        exact hnm (by simp [List.mem_cons, List.mem_append, hatt])
                  | error e2 =>
                      have htry : uploadPdfTry w req doc =
                          (Response.serverError "Failed to process PDF.",
                            Event.readFile :: (evs1 ++ evs2)) := by
                        simp [uploadPdfTry, hx, hana]
                      rw [htry]
                      constructor
                      · constructor
                        · intro _
                          exact ⟨hana1, t0, rfl, htrim1⟩
                        · intro _
                          simp [List.mem_cons, List.mem_append, hatt]
                      · intro hnm
                        exfalso
                        exact hnm (by simp [List.mem_cons, List.mem_append, hatt])

theorem uploadImageTry_c1 (w : World) (req : ImageRequest) (img : Nat) :
    (Event.analysisAttempt ∈ (uploadImageTry w req img).2 ↔
      parseFlag req.analyze = true ∧
      ∃ t, w.ocr img = Except.ok t ∧ jsTrim t ≠ "") ∧
    (Event.analysisAttempt ∉ (uploadImageTry w req img).2 →
      analysisOf (uploadImageTry w req img).1 = none) := by
  cases hx : w.ocr img with
  | error e1 =>
      have htry : uploadImageTry w req img =
          (Response.serverError "Failed to extract image text.",
            [Event.ocrRun img "eng"]) := by
        simp [uploadImageTry, hx]
      rw [htry]
      constructor
      · simp [hx]
      · intro _
        rfl
  | ok t0 =>
      cases hcond : parseFlag req.analyze && !(jsTrim t0 == "") with
      | false =>
          have hana := analyzePhase_empty_of_not_cond w.analysis (parseFlag req.analyze)
            t0 hcond
          have htry : uploadImageTry w req img =
              (Response.ok t0 none, Event.ocrRun img "eng" :: []) := by
            simp [uploadImageTry, hx, hana]
          rw [htry]
          constructor
          · constructor
            · intro hm
              exfalso
              simp at hm
            · rintro ⟨hana2, t, ht, htrim⟩
              exfalso
              injection ht with ht
              rw [hana2] at hcond
              simp at hcond
              rw [ht] at hcond
              exact htrim hcond
          · intro _
            rfl
      | true =>
          simp only [Bool.and_eq_true, Bool.not_eq_true', beq_eq_false_iff_ne] at hcond
          obtain ⟨hana1, htrim1⟩ := hcond
          have hcond' : (parseFlag req.analyze && !(jsTrim t0 == "")) = true := by
            simp [hana1, htrim1]
          cases hana : analyzePhase w.analysis (parseFlag req.analyze) t0 with
          | mk r2 evs2 =>
              have hatt : Event.analysisAttempt ∈ evs2 := by
                have h := analyzePhase_attempt_of_cond w.analysis
                  (parseFlag req.analyze) t0 hcond'
                rw [hana] at h
                exact h
              cases r2 with
              | ok ares =>
                  have htry : uploadImageTry w req img =
                      (Response.ok t0 ares, Event.ocrRun img "eng" :: evs2) := by
                    simp [uploadImageTry, hx, hana]
                  rw [htry]
                  constructor
                  · constructor
                    · intro _
                      exact ⟨hana1, t0, rfl, htrim1⟩
                    · intro _
                      simp [List.mem_cons, hatt]
                  · intro hnm
                    exfalso
                    exact hnm (by simp [List.mem_cons, hatt])
              | error e2 =>
                  have htry : uploadImageTry w req img =
                      (Response.serverError "Failed to extract image text.",
                        Event.ocrRun img "eng" :: evs2) := by
                    simp [uploadImageTry, hx, hana]
                  rw [htry]
                  constructor
                  · constructor
                    · intro _
                      exact ⟨hana1, t0, rfl, htrim1⟩
                    · intro _
                      simp [List.mem_cons, hatt]
                  · intro hnm
                    exfalso
                    exact hnm (by simp [List.mem_cons, hatt])

/-- Claim C1: for both endpoints, the analysis call is attempted iff the
analyze flag is true and the extracted text is non-empty after trimming
whitespace; whenever it is not attempted, the analysis field of the
response is null. -/
theorem c1_analysis_attempt_iff :
    (∀ (w : World) (req : PdfRequest) (path : String) (doc : PdfDoc),
        req.file = some (path, doc) →
        (Event.analysisAttempt ∈ (uploadPdfHandler w req).2 ↔
          parseFlag req.analyze = true ∧
          ∃ t, (extractPdfText w (parseFlag req.scanned) doc).1 = Except.ok t ∧
            jsTrim t ≠ "") ∧
        (Event.analysisAttempt ∉ (uploadPdfHandler w req).2 →
          analysisOf (uploadPdfHandler w req).1 = none)) ∧
    (∀ (w : World) (req : ImageRequest) (path : String) (img : Nat),
        req.file = some (path, img) →
        (Event.analysisAttempt ∈ (uploadImageHandler w req).2 ↔
          parseFlag req.analyze = true ∧
          ∃ t, w.ocr img = Except.ok t ∧ jsTrim t ≠ "") ∧
        (Event.analysisAttempt ∉ (uploadImageHandler w req).2 →
          analysisOf (uploadImageHandler w req).1 = none)) := by
  constructor
  · intro w req path doc hf
    have hc := uploadPdfTry_c1 w req doc
    rw [uploadPdfHandler_trace w req path doc hf, uploadPdfHandler_resp w req path doc hf,
      attempt_mem_full_iff]
    exact hc
  · intro w req path img hf
    have hc := uploadImageTry_c1 w req img
    rw [uploadImageHandler_trace w req path img hf, uploadImageHandler_resp w req path img hf,
      attempt_mem_full_iff]
    exact hc

/-- Witness for C1: with analyze="true" and non-empty extracted text the
attempt appears in the trace; with analyze absent the response's analysis
field is null. -/
theorem c1_witness :
    Event.analysisAttempt ∈
      (uploadPdfHandler sampleWorld
        ⟨some ("h.pdf", PdfDoc.wellFormed [samplePage1]), none, some "true"⟩).2 ∧
    analysisOf (uploadImageHandler sampleWorld ⟨some ("h.png", 3), none, none⟩).1 = none :=
  ⟨((c1_analysis_attempt_iff.1 sampleWorld _ "h.pdf" (PdfDoc.wellFormed [samplePage1])
        rfl).1).mpr ⟨by decide, "Hello World", rfl, by decide⟩,
   (c1_analysis_attempt_iff.2 sampleWorld _ "h.png" 3 rfl).2 (by decide)⟩
